import Mathlib

/-!
Shallow embedding of the session-coordination core of the reading-coach
backend: the per-session `ReadingService` state and its event handlers
(`src/domain/services/reading_service.py`), the outbound send-loop dispatch
of `src/application/websocket_handler.py`, and the first-message protocol
check of the websocket endpoint in `src/application/api.py`.

Modelling conventions:
- Python `bytes` become `List Nat`; wall-clock values (`datetime.utcnow()`,
  audio timestamps) become explicit `Nat`/`Int` parameters threaded into the
  handlers that stamp them.
- The asyncio queues become lists recording, in order, everything ever
  enqueued.  The Python outbound queue holds arbitrary objects, and the
  coordinator can put the agent's `None` response on it, so outbound queue
  items are `Option OutboundMessage` (`none` models Python `None`).
- Code that can raise becomes `Except`; a raising handler carries the state
  at the raise point, since Python exceptions leave earlier mutations in
  place.
- `coach_trace` is a ghost field recording the argument of every
  `reading_agent.coach(...)` call, so that theorems can speak about how
  often and with what buffer the coaching engine was invoked.  No handler
  reads it.
-/

namespace ReadingCoach

/-- `SessionStatus` enum from `domain/entities/reading_session.py`. -/
inductive SessionStatus where
  | ready
  | initializing
  | active
  | paused
  | completed
  | error
deriving DecidableEq

/-- `AudioFrame` from `domain/entities/audio.py`: PCM payload and capture
timestamp (the generated `frame_id` plays no role in the coordinator and is
omitted). -/
structure AudioFrame where
  pcm_bytes : List Nat
  timestamp : Int
deriving DecidableEq

/-- `ReadingSession` from `domain/entities/reading_session.py`, restricted to
the fields the coordinator reads or writes. -/
structure ReadingSession where
  id : String
  student_id : String
  book_id : String
  current_page : Int
  sample_rate : Int
  status : SessionStatus
  last_activity_at : Nat
deriving DecidableEq

/-- `BookMetadata` from `domain/entities/book.py` (coordinator-relevant
fields). -/
structure BookMetadata where
  book_id : String
  title : String
  total_pages : Int
deriving DecidableEq

/-- `Book` from `domain/entities/book.py`. -/
structure Book where
  metadata : BookMetadata
deriving DecidableEq

/-- `ErrorCode` enum from `domain/entities/websocket_messages.py`. -/
inductive ErrorCode where
  | invalid_message
  | invalid_page
  | auth_failed
  | session_not_found
  | internal_error
deriving DecidableEq

/-- The `PageChange` pydantic payload from
`domain/entities/websocket_messages.py`; its `event_id` starts as `None` and
is filled in by the coordinator when the pending-event id is allocated. -/
structure PageChange where
  page : Int
  direction : Option String
  event_id : Option String
deriving DecidableEq

/-- The `OutboundMessage` tagged union from `domain/entities/messages.py`.
`pageChange` carries the nested payload's `event_id` slot flattened in. -/
inductive OutboundMessage where
  | audioOut (pcm_bytes : List Nat) (timestamp : Int)
  | notice (message : String)
  | errorOut (code : ErrorCode) (message : String)
  | pageChange (page : Int) (direction : Option String) (event_id : Option String)
  | feedback (message : String) (feedback_type : String) (highlight_text : Option String)
  | sessionEnded (reason : String) (session_summary : Option String)
  | sessionReady (session_id : String) (book_id : String) (current_page : Int)
  | transcript (text : String) (is_final : Bool)
deriving DecidableEq

/-- The `InboundEvent` tagged union from `domain/entities/events.py`. -/
inductive InboundEvent where
  | initSession (student_id : String) (book_id : String) (current_page : Int) (sample_rate : Int)
  | updateReaderState (current_page : Int) (visible_text : String)
  | ingestAudio (pcm_bytes : List Nat) (timestamp : Int)
  | ackEvent (event_id : String) (status : String)
  | close
deriving DecidableEq

/-- The `ReadingAgent.coach` collaborator: it may raise (`Except.error`),
return no decision (`.ok none`, Python `None`), or return a message. -/
abbrev Coach := ReadingSession → Book → List AudioFrame → Except String (Option OutboundMessage)

/-- Per-session coordinator state: the fields of `ReadingService.__init__`
that the event handlers touch, plus the outbound queue contents and the
ghost `coach_trace`.  `pending_events` models the insertion-ordered Python
dict; `running` models `self._running`. -/
structure ReadingService where
  session : ReadingSession
  book : Book
  audio_buffer : List AudioFrame
  pending_events : List (String × PageChange)
  last_events : List PageChange
  max_event_history : Nat
  event_id_counter : Nat
  running : Bool
  outbound_queue : List (Option OutboundMessage)
  coach_trace : List (List AudioFrame)
deriving DecidableEq

/-- `ReadingService.__init__`: fresh buffers, empty pending map and history,
counter 0, not running. -/
def ReadingService.create (session : ReadingSession) (book : Book) : ReadingService :=
  { session := session
    book := book
    audio_buffer := []
    pending_events := []
    last_events := []
    max_event_history := 100
    event_id_counter := 0
    running := false
    outbound_queue := []
    coach_trace := [] }

/-- `await self.outbound_queue.put(message)` for a real (non-`None`)
message. -/
def emit (s : ReadingService) (m : OutboundMessage) : ReadingService :=
  { s with outbound_queue := s.outbound_queue ++ [some m] }

/-- `ReadingService._emit_session_ready`. -/
def emit_session_ready (s : ReadingService) : ReadingService :=
  emit s (.sessionReady s.session.id s.session.book_id s.session.current_page)

/-- `ReadingService.start`: no-op when already running, otherwise set
`_running`, mark the session Active, stamp activity and emit SessionReady.
(The creation of the asyncio task itself is concurrency plumbing and has no
further state effect.) -/
def ReadingService.start (now : Nat) (s : ReadingService) : ReadingService :=
  if s.running then s
  else
    emit_session_ready
      { s with running := true
               session := { s.session with status := .active, last_activity_at := now } }

/-- `ReadingService.pause`: no-op when not running, otherwise clear
`_running`, mark Paused, stamp activity (and cancel the loop task). -/
def ReadingService.pause (now : Nat) (s : ReadingService) : ReadingService :=
  if s.running then
    { s with running := false
             session := { s.session with status := .paused, last_activity_at := now } }
  else s

/-- `ReadingService.stop`: no-op when not running (`if not self._running:
return`), otherwise clear `_running`, mark Completed, stamp activity (and
cancel the loop task). -/
def ReadingService.stop (now : Nat) (s : ReadingService) : ReadingService :=
  if s.running then
    { s with running := false
             session := { s.session with status := .completed, last_activity_at := now } }
  else s

/-- `ReadingService._handle_init_session`. -/
def handle_init_session (now : Nat) (s : ReadingService)
    (student_id book_id : String) (current_page sample_rate : Int) : ReadingService :=
  emit_session_ready
    { s with session := { s.session with
        student_id := student_id
        book_id := book_id
        current_page := current_page
        sample_rate := sample_rate
        status := .active
        last_activity_at := now } }

/-- `ReadingService._handle_update_reader_state`: writes the client-supplied
page unconditionally (the `visible_text` is only logged). -/
def handle_update_reader_state (now : Nat) (s : ReadingService)
    (current_page : Int) (visible_text : String) : ReadingService :=
  { s with session := { s.session with current_page := current_page, last_activity_at := now } }

/-- The `self.audio_buffer[-50:]` trim applied when the buffer exceeds 50
frames ("Keep buffer manageable (last 50 frames)"). -/
def retain50 (l : List AudioFrame) : List AudioFrame :=
  if l.length > 50 then l.drop (l.length - 50) else l

/-- A handler computation: `.ok` is normal return, `.error` is a raised
exception carrying the state at the raise point and the exception text. -/
abbrev HandlerResult := Except (ReadingService × String) ReadingService

/-- The state a handler left behind, whether it returned or raised. -/
def stateOf : HandlerResult → ReadingService
  | .ok s => s
  | .error (s, _) => s

/-- The exception text of a failed handler (empty for a successful one). -/
def errorTextOf : HandlerResult → String
  | .ok _ => ""
  | .error (_, msg) => msg

/-- `ReadingService._process_audio_buffer`: trim the buffer to the most
recent 50 frames, call the coaching agent on the whole retained buffer
(recorded in `coach_trace`), then either apply and emit a validated page
change, silently drop an out-of-range one, or forward any other response —
including the agent's `None` — to the outbound queue. -/
def process_audio_buffer (coach : Coach) (now : Nat) (s : ReadingService) : HandlerResult :=
  let s := { s with audio_buffer := retain50 s.audio_buffer }
  let s := { s with coach_trace := s.coach_trace ++ [s.audio_buffer] }
  match coach s.session s.book s.audio_buffer with
  | .error e => .error (s, e)
  | .ok agent_response =>
    match agent_response with
    | some (.pageChange target_page direction _) =>
      if 1 ≤ target_page ∧ target_page ≤ s.book.metadata.total_pages then
        let s := { s with
          session := { s.session with current_page := target_page, last_activity_at := now }
          event_id_counter := s.event_id_counter + 1 }
        let event_id := s.session.id ++ "-evt-" ++ toString s.event_id_counter
        let pc : PageChange := { page := target_page, direction := direction, event_id := some event_id }
        let s := { s with pending_events := s.pending_events ++ [(event_id, pc)] }
        .ok { s with outbound_queue :=
          s.outbound_queue ++ [some (OutboundMessage.pageChange target_page direction (some event_id))] }
      else
        .ok s
    | _ => .ok { s with outbound_queue := s.outbound_queue ++ [agent_response] }

/-- `ReadingService._handle_ingest_audio`: wrap the bytes into an
`AudioFrame`, append it, and dispatch to `process_audio_buffer` when the
buffer has reached 10 frames. -/
def handle_ingest_audio (coach : Coach) (now : Nat) (s : ReadingService)
    (pcm_bytes : List Nat) (timestamp : Int) : HandlerResult :=
  let s := { s with audio_buffer := s.audio_buffer ++ [⟨pcm_bytes, timestamp⟩] }
  if s.audio_buffer.length ≥ 10 then process_audio_buffer coach now s
  else .ok s

/-- `ReadingService._handle_ack_event`: pop the pending entry; when present,
append it to the bounded history (`last 100` kept); an unknown id is only
logged. -/
def handle_ack_event (s : ReadingService) (event_id status : String) : ReadingService :=
  match List.lookup event_id s.pending_events with
  | none => s
  | some ui_event =>
    let s := { s with pending_events := s.pending_events.filter (fun p => p.1 ≠ event_id) }
    let s := { s with last_events := s.last_events ++ [ui_event] }
    if s.last_events.length > s.max_event_history then
      { s with last_events := s.last_events.drop (s.last_events.length - s.max_event_history) }
    else s

/-- `ReadingService._handle_close`: mark Completed, emit the notice, then
`stop()`. -/
def handle_close (now : Nat) (s : ReadingService) : ReadingService :=
  ReadingService.stop now
    (emit { s with session := { s.session with status := .completed } } (.notice "Session closed"))

/-- `ReadingService._handle_event`: dispatch on the event type. -/
def handle_event (coach : Coach) (now : Nat) (s : ReadingService) : InboundEvent → HandlerResult
  | .initSession sid bid page rate => .ok (handle_init_session now s sid bid page rate)
  | .updateReaderState page text => .ok (handle_update_reader_state now s page text)
  | .ingestAudio pcm ts => handle_ingest_audio coach now s pcm ts
  | .ackEvent eid status => .ok (handle_ack_event s eid status)
  | .close => .ok (handle_close now s)

/-- One iteration of the `try`/`except` body in
`ReadingService._process_inbound_events`: a handler exception is caught,
surfaced as an `INTERNAL_ERROR` ErrorOut on the outbound queue, and the
loop keeps the state the handler left behind. -/
def loop_step (coach : Coach) (now : Nat) (s : ReadingService) (e : InboundEvent) : ReadingService :=
  match handle_event coach now s e with
  | .ok s' => s'
  | .error (s', msg) =>
    emit s' (.errorOut .internal_error ("Internal processing error: " ++ msg))

/-- `ReadingService._process_inbound_events` over a finite arrival sequence:
`while self._running`, take the next event and run one `loop_step` on it.
(The `asyncio.TimeoutError` continue-branch only re-polls the queue and has
no state effect, so arrivals are modelled as the list itself.) -/
def process_inbound_events (coach : Coach) (now : Nat) :
    ReadingService → List InboundEvent → ReadingService
  | s, [] => s
  | s, e :: es =>
    if s.running then process_inbound_events coach now (loop_step coach now s e) es
    else s

/-- The dispatch of `WebSocketHandler._send_loop` on one dequeued item: every
`OutboundMessage` variant has a matching `case` that serialises it to the
wire, and anything else — in particular a `None` on the queue — hits
`case _` and raises `ValueError`. -/
def send_loop_step (item : Option OutboundMessage) : Except String Unit :=
  match item with
  | some (.sessionReady _ _ _) => .ok ()
  | some (.audioOut _ _) => .ok ()
  | some (.pageChange _ _ _) => .ok ()
  | some (.errorOut _ _) => .ok ()
  | some (.notice _) => .ok ()
  | some (.feedback _ _ _) => .ok ()
  | some (.sessionEnded _ _) => .ok ()
  | some (.transcript _ _) => .ok ()
  | none => .error "Unknown OutboundMessage type"

/-- The first client message as seen by `websocket_endpoint` in
`application/api.py`: either it fails `receive_json()`/attribute access
(non-JSON text, binary, or a JSON non-object — `malformed`), or it is a JSON
object whose relevant fields may each be absent. -/
inductive FirstMessage where
  | malformed
  | obj (ty : Option String) (student_id : Option String)
        (book_id : Option String) (current_page : Option Int)
deriving DecidableEq

/-- Python truthiness test `not x` for an optional string field: `None` and
the empty string are falsy. -/
def falsyStr : Option String → Bool
  | none => true
  | some s => s.length == 0

/-- Outcome of the first-message handshake: the error reply sent (if any),
whether the connection was closed at this stage, and whether a session was
created (the delegation to `controller.handle_websocket_connection`). -/
structure EndpointResult where
  sent_error : Option (String × String)
  closed : Bool
  session_created : Bool
deriving DecidableEq

/-- The first-message handling of `websocket_endpoint` (`application/api.py`):
a message that fails JSON-object decoding raises, is caught by the outer
`except Exception`, and the socket is closed with nothing sent; a JSON
object whose `type` is not `"session.create"`, or whose `student_id` or
`book_id` is missing/empty, gets an `INVALID_MESSAGE` error reply and a
close; otherwise the endpoint delegates to the controller, which creates
the session and starts the coordinator. -/
def websocket_endpoint_first_message : FirstMessage → EndpointResult
  | .malformed => { sent_error := none, closed := true, session_created := false }
  | .obj ty sid bid _ =>
    if ty ≠ some "session.create" then
      { sent_error := some ("INVALID_MESSAGE", "First message must be session.create")
        closed := true
        session_created := false }
    else if falsyStr sid || falsyStr bid then
      { sent_error := some ("INVALID_MESSAGE", "student_id and book_id are required")
        closed := true
        session_created := false }
    else
      { sent_error := none, closed := false, session_created := true }

/-- The page-bounds predicate the coordinator enforces for engine-driven
page changes: `1 <= target <= book.metadata.total_pages`. -/
def pageInRange (b : Book) (p : Int) : Prop :=
  1 ≤ p ∧ p ≤ b.metadata.total_pages

instance (b : Book) (p : Int) : Decidable (pageInRange b p) := by
  unfold pageInRange; infer_instance

/-- Whether the page carried by an inbound event (if any) is within the
book's bounds; events without a page field impose no condition. -/
def inboundPageOK (b : Book) : InboundEvent → Prop
  | .initSession _ _ page _ => pageInRange b page
  | .updateReaderState page _ => pageInRange b page
  | _ => True

instance (b : Book) (e : InboundEvent) : Decidable (inboundPageOK b e) := by
  cases e <;> (unfold inboundPageOK; infer_instance)

/-- A concrete five-page book for witnesses and counterexamples. -/
def demoBook : Book := { metadata := { book_id := "book-1", title := "Demo Book", total_pages := 5 } }

/-- A concrete freshly-created session on page 1, as the controller creates
it (`current_page=1`, status Initializing). -/
def demoSession : ReadingSession :=
  { id := "sess-1", student_id := "stu-1", book_id := "book-1", current_page := 1
    sample_rate := 16000, status := .initializing, last_activity_at := 0 }

/-- The coordinator immediately after `ReadingService(...)` construction. -/
def demoService : ReadingService := ReadingService.create demoSession demoBook

/-- The coordinator after `start()` — the state every connection reaches
before events are processed. -/
def demoStarted : ReadingService := ReadingService.start 0 demoService

/-- A coach that times out on both response channels and returns Python
`None` (as `nova_sonic_reading_agent.py` does under double timeout). -/
def coachNone : Coach := fun _ _ _ => .ok none

/-- A coach whose call raises. -/
def coachBoom : Coach := fun _ _ _ => .error "boom"

/-- `n` distinct one-byte audio chunks. -/
def chunks (n : Nat) : List (List Nat × Int) :=
  (List.range n).map (fun i => ([i], 0))

/-- The IngestAudio events for a list of chunks. -/
def ingestEvents (l : List (List Nat × Int)) : List InboundEvent :=
  l.map (fun p => .ingestAudio p.1 p.2)

/-- The coordinator after `start()` and nine ingested one-byte chunks: one
frame below the dispatch threshold. -/
def demoNine : ReadingService :=
  process_inbound_events coachNone 0 demoStarted (ingestEvents (chunks 9))

/-- A coach that always decides to jump to page 99. -/
def coach99 : Coach := fun _ _ _ =>
  .ok (some (OutboundMessage.pageChange 99 (some "next") none))

/-- Whether a handler returned normally rather than raising. -/
def isOkResult : HandlerResult → Bool
  | .ok _ => true
  | .error _ => false

/-!  Helper lemmas about the handlers, shared by several claims. -/

/-- `_handle_ack_event` never touches the session record. -/
theorem handle_ack_event_session (s : ReadingService) (eid status : String) :
    (handle_ack_event s eid status).session = s.session := by
  unfold handle_ack_event
  cases List.lookup eid s.pending_events with
  | none => rfl
  | some pc =>
    dsimp only
    split <;> rfl

/-- After `_process_audio_buffer`, whatever branch ran, the retained audio
buffer is exactly the `[-50:]` trim of the incoming buffer (dispatch does not
clear it). -/
theorem process_audio_buffer_buffer (coach : Coach) (now : Nat) (s : ReadingService) :
    (stateOf (process_audio_buffer coach now s)).audio_buffer = retain50 s.audio_buffer := by
  unfold process_audio_buffer
  dsimp only
  split
  · rfl
  · split
    · split <;> rfl
    · rfl

/-- `_process_audio_buffer` records exactly one coaching call, on the
retained buffer. -/
theorem process_audio_buffer_trace (coach : Coach) (now : Nat) (s : ReadingService) :
    (stateOf (process_audio_buffer coach now s)).coach_trace
      = s.coach_trace ++ [retain50 s.audio_buffer] := by
  unfold process_audio_buffer
  dsimp only
  split
  · rfl
  · split
    · split <;> rfl
    · rfl

/-- `_process_audio_buffer` never touches the running flag. -/
theorem process_audio_buffer_running (coach : Coach) (now : Nat) (s : ReadingService) :
    (stateOf (process_audio_buffer coach now s)).running = s.running := by
  unfold process_audio_buffer
  dsimp only
  split
  · rfl
  · split
    · split <;> rfl
    · rfl

/-- `_process_audio_buffer` keeps the current page within the book's bounds
whenever it was within bounds before: a page change is applied only after
the `1 <= target <= total_pages` check, and every other branch leaves the
session untouched. -/
theorem process_audio_buffer_page (coach : Coach) (now : Nat) (s : ReadingService)
    (hb : pageInRange s.book s.session.current_page) :
    pageInRange s.book (stateOf (process_audio_buffer coach now s)).session.current_page := by
  unfold process_audio_buffer
  dsimp only
  split
  · exact hb
  · split
    · rename_i target_page direction eid heq
      split
      · rename_i hin
        simpa [stateOf, pageInRange] using hin
      · exact hb
    · exact hb

/-- Below the dispatch threshold, `_handle_ingest_audio` only appends the new
frame: no coaching call, no other state change. -/
theorem handle_ingest_audio_no_dispatch (coach : Coach) (now : Nat) (s : ReadingService)
    (pcm : List Nat) (ts : Int) (h : s.audio_buffer.length + 1 < 10) :
    handle_ingest_audio coach now s pcm ts
      = .ok { s with audio_buffer := s.audio_buffer ++ [⟨pcm, ts⟩] } := by
  unfold handle_ingest_audio
  dsimp only
  rw [if_neg]
  simp only [List.length_append, List.length_cons, List.length_nil]
  omega

/-- At or above the dispatch threshold, `_handle_ingest_audio` appends the
frame and runs one `_process_audio_buffer`: exactly one coaching call on the
whole retained buffer, which is also the buffer kept afterwards. -/
theorem handle_ingest_audio_dispatch (coach : Coach) (now : Nat) (s : ReadingService)
    (pcm : List Nat) (ts : Int) (h : 10 ≤ s.audio_buffer.length + 1) :
    (stateOf (handle_ingest_audio coach now s pcm ts)).coach_trace
        = s.coach_trace ++ [retain50 (s.audio_buffer ++ [⟨pcm, ts⟩])]
  ∧ (stateOf (handle_ingest_audio coach now s pcm ts)).audio_buffer
        = retain50 (s.audio_buffer ++ [⟨pcm, ts⟩])
  ∧ (stateOf (handle_ingest_audio coach now s pcm ts)).running = s.running := by
  unfold handle_ingest_audio
  dsimp only
  rw [if_pos]
  · exact ⟨process_audio_buffer_trace coach now _, process_audio_buffer_buffer coach now _,
      process_audio_buffer_running coach now _⟩
  · simp only [List.length_append, List.length_cons, List.length_nil]
    omega

/-- On an IngestAudio event, the loop step observes the same buffer, trace
and running flag as the handler it wraps: the catch-branch only appends an
ErrorOut to the outbound queue. -/
theorem loop_step_ingest_fields (coach : Coach) (now : Nat) (s : ReadingService)
    (pcm : List Nat) (ts : Int) :
    (loop_step coach now s (.ingestAudio pcm ts)).audio_buffer
        = (stateOf (handle_ingest_audio coach now s pcm ts)).audio_buffer
  ∧ (loop_step coach now s (.ingestAudio pcm ts)).running
        = (stateOf (handle_ingest_audio coach now s pcm ts)).running
  ∧ (loop_step coach now s (.ingestAudio pcm ts)).coach_trace
        = (stateOf (handle_ingest_audio coach now s pcm ts)).coach_trace := by
  unfold loop_step handle_event
  dsimp only
  cases h : handle_ingest_audio coach now s pcm ts with
  | ok s1 => exact ⟨rfl, rfl, rfl⟩
  | error p =>
    obtain ⟨s1, msg⟩ := p
    exact ⟨rfl, rfl, rfl⟩

/-- The `[-50:]` trim never keeps more than 50 frames. -/
theorem retain50_length_le (l : List AudioFrame) : (retain50 l).length ≤ 50 := by
  unfold retain50
  split
  · rw [List.length_drop]
    omega
  · omega

/-- The `[-50:]` trim drops only from the front: the retained buffer is a
suffix of the incoming one. -/
theorem retain50_suffix (l : List AudioFrame) : retain50 l <:+ l := by
  unfold retain50
  split
  · exact List.drop_suffix _ _
  · exact List.suffix_refl l

/-- Appending the same tail on the right preserves the suffix relation. -/
theorem isSuffix_append_same {α : Type} {l m : List α} (t : List α) (h : l <:+ m) :
    l ++ t <:+ m ++ t := by
  obtain ⟨u, hu⟩ := h
  exact ⟨u, by rw [← List.append_assoc, hu]⟩

/-- `_handle_ingest_audio` never touches the running flag. -/
theorem handle_ingest_audio_running (coach : Coach) (now : Nat) (s : ReadingService)
    (pcm : List Nat) (ts : Int) :
    (stateOf (handle_ingest_audio coach now s pcm ts)).running = s.running := by
  unfold handle_ingest_audio
  dsimp only
  split
  · exact process_audio_buffer_running coach now _
  · rfl

/-- One IngestAudio event keeps the buffer within the 50-frame cap. -/
theorem handle_ingest_audio_buffer_le (coach : Coach) (now : Nat) (s : ReadingService)
    (pcm : List Nat) (ts : Int) (h50 : s.audio_buffer.length ≤ 50) :
    (stateOf (handle_ingest_audio coach now s pcm ts)).audio_buffer.length ≤ 50 := by
  unfold handle_ingest_audio
  dsimp only
  split
  · rw [process_audio_buffer_buffer]
    exact retain50_length_le _
  · rename_i hlt
    simp only [stateOf, List.length_append, List.length_cons, List.length_nil] at hlt ⊢
    omega

/-- One IngestAudio event drops frames only from the front: the resulting
buffer is a suffix of the old buffer with the new frame appended. -/
theorem handle_ingest_audio_buffer_suffix (coach : Coach) (now : Nat) (s : ReadingService)
    (pcm : List Nat) (ts : Int) :
    (stateOf (handle_ingest_audio coach now s pcm ts)).audio_buffer
      <:+ s.audio_buffer ++ [⟨pcm, ts⟩] := by
  unfold handle_ingest_audio
  dsimp only
  split
  · rw [process_audio_buffer_buffer]
    exact retain50_suffix _
  · exact List.suffix_refl _

/-! Claim theorems. -/

/-- C1 (counterexample): the page invariant `1 ≤ current_page ≤ totalPages`
is NOT maintained across every coordinator-handled inbound event.  From the
started coordinator of a five-page book (page 1, in range), handling a
ReaderStateUpdate event carrying page 0 leaves `current_page = 0`: the
handler writes the client-supplied page without validation. -/
theorem C1_reader_state_update_breaks_page_invariant :
    pageInRange demoStarted.book demoStarted.session.current_page
  ∧ (loop_step coachNone 1 demoStarted (.updateReaderState 0 "")).session.current_page = 0
  ∧ ¬ pageInRange demoStarted.book
      (loop_step coachNone 1 demoStarted (.updateReaderState 0 "")).session.current_page := by
  decide

/-- C1 (amended): the coordinator validates only engine-driven page changes.
Every handler preserves `1 ≤ current_page ≤ book.totalPages`, provided the
page carried by a SessionInit or ReaderStateUpdate event is itself within
the book's bounds; those client-supplied pages are written unvalidated. -/
theorem C1_page_invariant_amended (coach : Coach) (now : Nat) (s : ReadingService)
    (e : InboundEvent)
    (hb : pageInRange s.book s.session.current_page)
    (he : inboundPageOK s.book e) :
    pageInRange s.book (stateOf (handle_event coach now s e)).session.current_page := by
  cases e with
  | initSession sid bid page rate =>
    simpa [handle_event, handle_init_session, emit_session_ready, emit, stateOf, inboundPageOK]
      using he
  | updateReaderState page text =>
    simpa [handle_event, handle_update_reader_state, stateOf, inboundPageOK] using he
  | ingestAudio pcm ts =>
    show pageInRange s.book (stateOf (handle_ingest_audio coach now s pcm ts)).session.current_page
    unfold handle_ingest_audio
    dsimp only
    split
    · exact process_audio_buffer_page coach now _ hb
    · exact hb
  | ackEvent eid st =>
    show pageInRange s.book (stateOf (Except.ok (handle_ack_event s eid st))).session.current_page
    rw [stateOf, handle_ack_event_session]
    exact hb
  | close =>
    show pageInRange s.book (stateOf (Except.ok (handle_close now s))).session.current_page
    rw [stateOf]
    unfold handle_close ReadingService.stop emit
    dsimp only
    split <;> exact hb

/-- C1 witness: the amended invariant applied to the started coordinator and
an in-range ReaderStateUpdate to page 3. -/
theorem C1_page_invariant_amended_witness :
    pageInRange demoStarted.book demoStarted.session.current_page
  ∧ inboundPageOK demoStarted.book (.updateReaderState 3 "text")
  ∧ pageInRange demoStarted.book
      (stateOf (handle_event coachNone 7 demoStarted (.updateReaderState 3 "text"))).session.current_page :=
  ⟨by decide, by decide,
    C1_page_invariant_amended coachNone 7 demoStarted (.updateReaderState 3 "text")
      (by decide) (by decide)⟩

/-- C2 (code evidence): when the coaching engine returns no decision
(Python `None`), the coordinator does NOT leave the outbound queue alone —
`_process_audio_buffer` falls through to `outbound_queue.put(agent_response)`
and enqueues the `None` itself, and the send loop's `case _` raises
`ValueError` on it (which the supervising handler treats as session-fatal).
Concretely: after `start()` (one SessionReady enqueued) and nine chunks,
ingesting the tenth chunk under a no-decision engine leaves `None` on the
queue. -/
theorem C2_none_decision_enqueued_bug :
    (stateOf (handle_ingest_audio coachNone 0 demoNine [9] 0)).outbound_queue
      = [some (OutboundMessage.sessionReady "sess-1" "book-1" 1), none]
  ∧ send_loop_step none = Except.error "Unknown OutboundMessage type" :=
  ⟨by decide, rfl⟩

/-- C3 (counterexample): `stop()` on a Paused session does not complete it.
`stop` early-returns when `_running` is false, and `pause()` has already
cleared `_running`, so the session stays Paused. -/
theorem C3_stop_on_paused_is_noop :
    (ReadingService.pause 1 demoStarted).session.status = SessionStatus.paused
  ∧ (ReadingService.stop 2 (ReadingService.pause 1 demoStarted)).session.status
      = SessionStatus.paused
  ∧ SessionStatus.paused ≠ SessionStatus.completed := by
  decide

/-- C3 (amended): `stop()` transitions a session whose event loop is running
to Completed and halts the loop; on a session whose loop is not running —
including a Paused one — it is a no-op that leaves the whole state (status
included) unchanged. -/
theorem C3_stop_amended (now : Nat) (s : ReadingService) :
    (s.running = true →
       (ReadingService.stop now s).session.status = SessionStatus.completed
     ∧ (ReadingService.stop now s).running = false)
  ∧ (s.running = false → ReadingService.stop now s = s) := by
  constructor <;> intro h <;> simp [ReadingService.stop, h]

/-- C3 witness: stopping the started (running) coordinator completes it. -/
theorem C3_stop_amended_witness :
    demoStarted.running = true
  ∧ (ReadingService.stop 3 demoStarted).session.status = SessionStatus.completed
  ∧ (ReadingService.stop 3 demoStarted).running = false :=
  ⟨by decide, (C3_stop_amended 3 demoStarted).1 (by decide)⟩

/-- C4 (counterexample): a Completed (terminal) session is not closed to
further transitions: `start()` is guarded only by the `_running` flag, so
calling it on a stopped session restarts the loop and sets the status back
to Active. -/
theorem C4_start_restarts_completed_session :
    (ReadingService.stop 1 demoStarted).session.status = SessionStatus.completed
  ∧ (ReadingService.start 2 (ReadingService.stop 1 demoStarted)).session.status
      = SessionStatus.active
  ∧ (ReadingService.start 2 (ReadingService.stop 1 demoStarted)).running = true := by
  decide

/-- C4 (amended): on a session whose loop is not running (which is the case
in the terminal states reached through `stop()`), `pause()` and `stop()` are
no-ops, but `start()` does accept the call: it restarts the event loop and
sets the status to Active — terminal statuses are not themselves guarded. -/
theorem C4_terminal_states_amended (now : Nat) (s : ReadingService)
    (h : s.running = false) :
    ReadingService.pause now s = s
  ∧ ReadingService.stop now s = s
  ∧ (ReadingService.start now s).session.status = SessionStatus.active
  ∧ (ReadingService.start now s).running = true := by
  refine ⟨?_, ?_, ?_, ?_⟩ <;>
    simp [ReadingService.pause, ReadingService.stop, ReadingService.start,
      emit_session_ready, emit, h]

/-- C4 witness: the amended statement applied to the concretely stopped
coordinator. -/
theorem C4_terminal_states_amended_witness :
    (ReadingService.stop 1 demoStarted).running = false
  ∧ ReadingService.pause 2 (ReadingService.stop 1 demoStarted)
      = ReadingService.stop 1 demoStarted
  ∧ ReadingService.stop 2 (ReadingService.stop 1 demoStarted)
      = ReadingService.stop 1 demoStarted
  ∧ (ReadingService.start 2 (ReadingService.stop 1 demoStarted)).session.status
      = SessionStatus.active
  ∧ (ReadingService.start 2 (ReadingService.stop 1 demoStarted)).running = true :=
  ⟨by decide, C4_terminal_states_amended 2 (ReadingService.stop 1 demoStarted) (by decide)⟩

/-- C7: an engine page-change decision whose target is outside
`[1, totalPages]` is silently dropped by `_process_audio_buffer`: the handler
returns before the `put`, so no outbound message of any kind is enqueued and
`current_page`, `last_activity_at`, the pending-event map and the event-id
counter are all unchanged. -/
theorem C7_out_of_range_page_change_dropped (coach : Coach) (now : Nat) (s : ReadingService)
    (page : Int) (dir eid : Option String)
    (hc : coach s.session s.book (retain50 s.audio_buffer)
        = .ok (some (OutboundMessage.pageChange page dir eid)))
    (hp : ¬ pageInRange s.book page) :
    (stateOf (process_audio_buffer coach now s)).outbound_queue = s.outbound_queue
  ∧ (stateOf (process_audio_buffer coach now s)).session.current_page
      = s.session.current_page
  ∧ (stateOf (process_audio_buffer coach now s)).session.last_activity_at
      = s.session.last_activity_at
  ∧ (stateOf (process_audio_buffer coach now s)).pending_events = s.pending_events
  ∧ (stateOf (process_audio_buffer coach now s)).event_id_counter = s.event_id_counter := by
  unfold process_audio_buffer
  dsimp only
  rw [hc]
  dsimp only
  rw [if_neg (by simpa [pageInRange] using hp)]
  exact ⟨rfl, rfl, rfl, rfl, rfl⟩

/-- C7 witness: a coach demanding page 99 of the five-page book changes
nothing observable in the started coordinator. -/
theorem C7_out_of_range_page_change_dropped_witness :
    coach99 demoStarted.session demoStarted.book (retain50 demoStarted.audio_buffer)
      = .ok (some (OutboundMessage.pageChange 99 (some "next") none))
  ∧ ¬ pageInRange demoStarted.book 99
  ∧ ((stateOf (process_audio_buffer coach99 0 demoStarted)).outbound_queue
        = demoStarted.outbound_queue
    ∧ (stateOf (process_audio_buffer coach99 0 demoStarted)).session.current_page
        = demoStarted.session.current_page
    ∧ (stateOf (process_audio_buffer coach99 0 demoStarted)).session.last_activity_at
        = demoStarted.session.last_activity_at
    ∧ (stateOf (process_audio_buffer coach99 0 demoStarted)).pending_events
        = demoStarted.pending_events
    ∧ (stateOf (process_audio_buffer coach99 0 demoStarted)).event_id_counter
        = demoStarted.event_id_counter) :=
  ⟨rfl, by decide,
    C7_out_of_range_page_change_dropped coach99 0 demoStarted 99 (some "next") none
      rfl (by decide)⟩

/-- C10: acknowledging an event id that is not in the pending map is a
complete no-op: `pending_events.pop` misses, only a warning is logged, and
the returned state — pending map, history, session, queues — is exactly the
input state. -/
theorem C10_ack_unknown_event_noop (s : ReadingService) (eid status : String)
    (h : List.lookup eid s.pending_events = none) :
    handle_ack_event s eid status = s := by
  unfold handle_ack_event
  rw [h]

/-- C10 witness: acknowledging an id on the started coordinator (whose
pending map is empty) changes nothing. -/
theorem C10_ack_unknown_event_noop_witness :
    List.lookup "sess-1-evt-1" demoStarted.pending_events = none
  ∧ handle_ack_event demoStarted "sess-1-evt-1" "ok" = demoStarted :=
  ⟨by decide, C10_ack_unknown_event_noop demoStarted "sess-1-evt-1" "ok" (by decide)⟩

/-- C5: over any sequence of IngestAudio events, from any coordinator state
within the cap, the audio buffer holds at most 50 frames after each event is
fully handled, and frames are only ever dropped from the front (the final
buffer is a suffix of the initial buffer plus everything ingested).  Because
the start state is arbitrary, the bound holds after every intermediate event
of the sequence as well. -/
theorem C5_audio_buffer_bounded (coach : Coach) (now : Nat) (s : ReadingService)
    (hr : s.running = true) (h50 : s.audio_buffer.length ≤ 50)
    (l : List (List Nat × Int)) :
    (process_inbound_events coach now s (ingestEvents l)).audio_buffer.length ≤ 50
  ∧ (process_inbound_events coach now s (ingestEvents l)).audio_buffer
      <:+ s.audio_buffer ++ l.map (fun p => ⟨p.1, p.2⟩) := by
  induction l generalizing s with
  | nil =>
    exact ⟨by simpa [process_inbound_events, ingestEvents] using h50,
      by simp [process_inbound_events, ingestEvents]⟩
  | cons p ps ih =>
    have hstep : process_inbound_events coach now s (ingestEvents (p :: ps))
        = process_inbound_events coach now
            (loop_step coach now s (.ingestAudio p.1 p.2)) (ingestEvents ps) := by
      simp [ingestEvents, process_inbound_events, hr]
    have hfields := loop_step_ingest_fields coach now s p.1 p.2
    have hr1 : (loop_step coach now s (.ingestAudio p.1 p.2)).running = true := by
      rw [hfields.2.1, handle_ingest_audio_running]
      exact hr
    have h501 : (loop_step coach now s (.ingestAudio p.1 p.2)).audio_buffer.length ≤ 50 := by
      rw [hfields.1]
      exact handle_ingest_audio_buffer_le coach now s p.1 p.2 h50
    obtain ⟨ih1, ih2⟩ := ih (loop_step coach now s (.ingestAudio p.1 p.2)) hr1 h501
    rw [hstep]
    refine ⟨ih1, ?_⟩
    have hsfx : (loop_step coach now s (.ingestAudio p.1 p.2)).audio_buffer
        <:+ s.audio_buffer ++ [⟨p.1, p.2⟩] := by
      rw [hfields.1]
      exact handle_ingest_audio_buffer_suffix coach now s p.1 p.2
    have h3 := (isSuffix_append_same (ps.map (fun p => ⟨p.1, p.2⟩)) hsfx)
    have h4 := ih2.trans h3
    simpa [List.append_assoc] using h4

/-- C5 witness: sixty chunks into the started coordinator retain exactly a
≤50-frame suffix of everything ingested. -/
theorem C5_audio_buffer_bounded_witness :
    demoStarted.running = true
  ∧ demoStarted.audio_buffer.length ≤ 50
  ∧ ((process_inbound_events coachNone 0 demoStarted (ingestEvents (chunks 60))).audio_buffer.length ≤ 50
    ∧ (process_inbound_events coachNone 0 demoStarted (ingestEvents (chunks 60))).audio_buffer
        <:+ demoStarted.audio_buffer ++ (chunks 60).map (fun p => ⟨p.1, p.2⟩)) :=
  ⟨by decide, by decide,
    C5_audio_buffer_bounded coachNone 0 demoStarted (by decide) (by decide) (chunks 60)⟩

/-- C6: on each IngestAudio event the frame is appended, and the coaching
engine is called exactly once if and only if the resulting buffer length is
≥ 10: below the threshold the handler returns with only the appended frame
(no coach call, nothing else changed); at or above it, exactly one coaching
call is recorded, its argument is the entire retained buffer (the most
recent ≤ 50 frames), and that same buffer — not a cleared one — is kept
afterwards.  In particular ingesting ten chunks into the freshly started
coordinator dispatches exactly once. -/
theorem C6_dispatch_policy (coach : Coach) (now : Nat) (s : ReadingService)
    (pcm : List Nat) (ts : Int) :
    (s.audio_buffer.length + 1 < 10 →
        handle_ingest_audio coach now s pcm ts
          = .ok { s with audio_buffer := s.audio_buffer ++ [⟨pcm, ts⟩] })
  ∧ (10 ≤ s.audio_buffer.length + 1 →
        (stateOf (handle_ingest_audio coach now s pcm ts)).coach_trace
            = s.coach_trace ++ [retain50 (s.audio_buffer ++ [⟨pcm, ts⟩])]
      ∧ (stateOf (handle_ingest_audio coach now s pcm ts)).audio_buffer
            = retain50 (s.audio_buffer ++ [⟨pcm, ts⟩]))
  ∧ (process_inbound_events coachNone 0 demoStarted (ingestEvents (chunks 10))).coach_trace.length
        = 1
  ∧ (process_inbound_events coachNone 0 demoStarted (ingestEvents (chunks 9))).coach_trace.length
        = 0 := by
  refine ⟨fun h => handle_ingest_audio_no_dispatch coach now s pcm ts h,
    fun h => ⟨(handle_ingest_audio_dispatch coach now s pcm ts h).1,
      (handle_ingest_audio_dispatch coach now s pcm ts h).2.1⟩, by decide, by decide⟩

/-- C6 witness: the ninth chunk does not dispatch; the tenth dispatches once
with the whole ten-frame buffer, which stays in place. -/
theorem C6_dispatch_policy_witness :
    demoStarted.audio_buffer.length + 1 < 10
  ∧ handle_ingest_audio coachNone 0 demoStarted [0] 0
      = .ok { demoStarted with audio_buffer := demoStarted.audio_buffer ++ [⟨[0], 0⟩] }
  ∧ 10 ≤ demoNine.audio_buffer.length + 1
  ∧ ((stateOf (handle_ingest_audio coachNone 0 demoNine [9] 0)).coach_trace
        = demoNine.coach_trace ++ [retain50 (demoNine.audio_buffer ++ [⟨[9], 0⟩])]
    ∧ (stateOf (handle_ingest_audio coachNone 0 demoNine [9] 0)).audio_buffer
        = retain50 (demoNine.audio_buffer ++ [⟨[9], 0⟩])) :=
  ⟨by decide, (C6_dispatch_policy coachNone 0 demoStarted [0] 0).1 (by decide),
    by decide, (C6_dispatch_policy coachNone 0 demoNine [9] 0).2.1 (by decide)⟩

/-- C8 (counterexample): a handler exception does surface as an ErrorOut and
the loop does continue — but NOT "exactly as if the failing event had not
occurred": mutations the handler made before raising persist.  With an
engine whose call always raises, eleven chunks leave eleven frames in the
buffer (the frame appended by the first failing event included) and two
INTERNAL_ERROR emissions, whereas dropping that failing event leaves ten
frames — so subsequent events are processed against a different state. -/
theorem C8_failing_event_mutation_persists :
    (process_inbound_events coachBoom 0 demoStarted
        (ingestEvents (chunks 11))).audio_buffer.length = 11
  ∧ (process_inbound_events coachBoom 0 demoStarted
        (ingestEvents ((chunks 11).eraseIdx 9))).audio_buffer.length = 10
  ∧ (process_inbound_events coachBoom 0 demoStarted
        (ingestEvents (chunks 11))).outbound_queue.countP
        (fun m => m == some (OutboundMessage.errorOut ErrorCode.internal_error
          "Internal processing error: boom")) = 2
  ∧ (11 : Nat) ≠ 10 := by
  decide

/-- C8 (amended): when an event's handler raises inside the loop, an ErrorOut
with code INTERNAL_ERROR (carrying the exception text) is enqueued and the
loop continues with the remaining events — from the state the failing
handler left behind, partial mutations included. -/
theorem C8_handler_error_recovery_amended (coach : Coach) (now : Nat) (s : ReadingService)
    (e : InboundEvent) (es : List InboundEvent)
    (hr : s.running = true)
    (hf : isOkResult (handle_event coach now s e) = false) :
    process_inbound_events coach now s (e :: es)
      = process_inbound_events coach now
          (emit (stateOf (handle_event coach now s e))
            (.errorOut .internal_error
              ("Internal processing error: " ++ errorTextOf (handle_event coach now s e)))) es := by
  have hstep : process_inbound_events coach now s (e :: es)
      = process_inbound_events coach now (loop_step coach now s e) es := by
    simp [process_inbound_events, hr]
  rw [hstep]
  congr 1
  unfold loop_step
  cases hh : handle_event coach now s e with
  | ok s1 =>
    rw [hh] at hf
    simp [isOkResult] at hf
  | error p =>
    obtain ⟨s1, msg⟩ := p
    simp [stateOf, errorTextOf, emit]

/-- C8 witness: the raising engine on the tenth chunk yields exactly the
ErrorOut continuation. -/
theorem C8_handler_error_recovery_amended_witness :
    demoNine.running = true
  ∧ isOkResult (handle_event coachBoom 0 demoNine (.ingestAudio [9] 0)) = false
  ∧ process_inbound_events coachBoom 0 demoNine [.ingestAudio [9] 0]
      = process_inbound_events coachBoom 0
          (emit (stateOf (handle_event coachBoom 0 demoNine (.ingestAudio [9] 0)))
            (.errorOut .internal_error
              ("Internal processing error: "
                ++ errorTextOf (handle_event coachBoom 0 demoNine (.ingestAudio [9] 0))))) [] :=
  ⟨by decide, by decide,
    C8_handler_error_recovery_amended coachBoom 0 demoNine (.ingestAudio [9] 0) []
      (by decide) (by decide)⟩

/-- C9 (counterexample): a first message that is not a JSON object at all
(unparseable text, binary, or a JSON non-object) makes `receive_json`/the
attribute access raise; the outer `except` closes the connection without
creating a session — but also without sending any error message, contrary to
the claim that such a first message gets an INVALID_MESSAGE reply. -/
theorem C9_malformed_first_message_no_error_reply :
    (websocket_endpoint_first_message .malformed).closed = true
  ∧ (websocket_endpoint_first_message .malformed).session_created = false
  ∧ (websocket_endpoint_first_message .malformed).sent_error = none := by
  decide

/-- C9 (amended): a first message that parses as a JSON object but is not a
valid session.create — wrong or missing `type`, or missing/empty
`student_id` or `book_id` — gets an error reply with code INVALID_MESSAGE
and the connection is closed without creating a session or starting a
coordinator; a first message that is not a JSON object is closed without a
reply and likewise without a session. -/
theorem C9_first_message_protocol_amended (ty sid bid : Option String) (cp : Option Int)
    (h : ty ≠ some "session.create" ∨ falsyStr sid = true ∨ falsyStr bid = true) :
    ((websocket_endpoint_first_message (.obj ty sid bid cp)).sent_error.map Prod.fst
        = some "INVALID_MESSAGE"
    ∧ (websocket_endpoint_first_message (.obj ty sid bid cp)).closed = true
    ∧ (websocket_endpoint_first_message (.obj ty sid bid cp)).session_created = false)
  ∧ ((websocket_endpoint_first_message .malformed).sent_error = none
    ∧ (websocket_endpoint_first_message .malformed).closed = true
    ∧ (websocket_endpoint_first_message .malformed).session_created = false) := by
  refine ⟨?_, rfl, rfl, rfl⟩
  unfold websocket_endpoint_first_message
  dsimp only
  by_cases hty : ty = some "session.create"
  · have hsb : (falsyStr sid || falsyStr bid) = true := by
      rcases h with h | h | h
      · exact absurd hty h
      · simp [h]
      · simp [h]
    rw [if_neg (by simp [hty]), if_pos hsb]
    exact ⟨rfl, rfl, rfl⟩
  · rw [if_pos hty]
    exact ⟨rfl, rfl, rfl⟩

/-- C9 witness: a session.create object missing its book_id draws the
INVALID_MESSAGE reply and no session. -/
theorem C9_first_message_protocol_amended_witness :
    ((some "session.create" : Option String) ≠ some "session.create"
      ∨ falsyStr (some "stu-1") = true ∨ falsyStr none = true)
  ∧ (((websocket_endpoint_first_message
        (.obj (some "session.create") (some "stu-1") none none)).sent_error.map Prod.fst
          = some "INVALID_MESSAGE"
    ∧ (websocket_endpoint_first_message
        (.obj (some "session.create") (some "stu-1") none none)).closed = true
    ∧ (websocket_endpoint_first_message
        (.obj (some "session.create") (some "stu-1") none none)).session_created = false)
  ∧ ((websocket_endpoint_first_message .malformed).sent_error = none
    ∧ (websocket_endpoint_first_message .malformed).closed = true
    ∧ (websocket_endpoint_first_message .malformed).session_created = false)) :=
  ⟨by decide,
    C9_first_message_protocol_amended (some "session.create") (some "stu-1") none none
      (by decide)⟩

end ReadingCoach
